import Mathlib

/-!
Verification development for the `w3w-rust` What3Words API client.

The repository's numeric fields are Rust `f64`. They are modelled here as
rationals, and Rust's `Display` formatting of an `f64` (shortest decimal
string that round-trips) is modelled by `fmtDecimal`, the exact decimal
rendering of a rational whose denominator divides a power of ten. For the
decimal literals appearing in the specification (e.g. `50.12345`) the two
renderings agree, since such literals are their own shortest round-trip
representation.

Rust `Result<T, E>` values are modelled with `Except`; computations that may
`panic!` (via `unwrap` / `expect` / out-of-bounds indexing) are modelled with
`PanicOr` and `RunResult`, which make the panic outcome explicit.
-/

namespace W3W

/-- Exact decimal exponent of a rational: the least `k ≤ 39` such that
`q * 10^k` is an integer, i.e. such that `q.den` divides `10^k` (`0` if
none). Matches `fmtDecimal`'s use below. -/
def decExp (q : Rat) : Nat :=
  (((List.range 40).find? (fun k => 10 ^ k % q.den == 0)).getD 0)

/-- Decimal rendering of a rational with a power-of-ten denominator, the model
of Rust's `Display` for the `f64` values produced by the decimal literals in
this development: sign, integer part, and (when nonzero exponent) a point
followed by the zero-padded fractional digits. `35` renders as `"35"`,
`50.12345` as `"50.12345"`, `-3.98765` as `"-3.98765"`. -/
def fmtDecimal (q : Rat) : String :=
  let k := decExp q
  let n : Int := q.num * (10 ^ k : Nat) / (q.den : Int)
  let sign := if n < 0 then "-" else ""
  let m := n.natAbs
  if k == 0 then
    sign ++ toString m
  else
    let ip := m / 10 ^ k
    let fp := m % 10 ^ k
    let fpStr := toString fp
    let fpPad := String.mk (List.replicate (k - fpStr.length) '0') ++ fpStr
    sign ++ toString ip ++ "." ++ fpPad

/-- `src/coordinate.rs`: a latitude/longitude pair (`f64` fields modelled as
rationals). -/
structure Coordinate where
  latitude : Rat
  longitude : Rat

/-- `Coordinate::to_string` (`src/coordinate.rs`):
`format!("{},{}", self.latitude, self.longitude)`. -/
def Coordinate.to_string (self : Coordinate) : String :=
  fmtDecimal self.latitude ++ "," ++ fmtDecimal self.longitude

/-- `src/circle.rs`: a centerpoint coordinate plus a radius in kilometers. -/
structure Circle where
  centerpoint : Coordinate
  radius : Rat

/-- `Circle::to_string` (`src/circle.rs`):
`format!("{},{}", self.centerpoint.to_string(), self.radius)`. -/
def Circle.to_string (self : Circle) : String :=
  self.centerpoint.to_string ++ "," ++ fmtDecimal self.radius

/-- `src/bounding_box.rs`: south-west and north-east corner coordinates. -/
structure BoundingBox where
  south_west : Coordinate
  north_east : Coordinate

/-- `BoundingBox::to_string` (`src/bounding_box.rs`):
`format!("{},{}", self.south_west.to_string(), self.north_east.to_string())`. -/
def BoundingBox.to_string (self : BoundingBox) : String :=
  self.south_west.to_string ++ "," ++ self.north_east.to_string

/-- Outcome of a computation that may `panic!` but cannot otherwise fail. -/
inductive PanicOr (α : Type) where
  | panicked
  | ok (a : α)
deriving DecidableEq

def PanicOr.map {α β : Type} (f : α → β) : PanicOr α → PanicOr β
  | .panicked => .panicked
  | .ok a => .ok (f a)

/-- `src/polygon.rs`: a polygon given by its list of coordinates (the source
holds a `Vec<&Coordinate>`). -/
structure Polygon where
  coordinates : List Coordinate

/-- `Polygon::to_string` (`src/polygon.rs`): pushes `"<coord>,"` for every
coordinate, then appends `self.coordinates[0].to_string()`. The final index
access panics when the coordinate list is empty, hence the `PanicOr` result. -/
def Polygon.to_string (self : Polygon) : PanicOr String :=
  let result :=
    self.coordinates.foldl (fun acc item => acc ++ (item.to_string ++ ",")) ""
  match self.coordinates[0]? with
  | some c0 => .ok (result ++ c0.to_string)
  | none => .panicked

/-- Comma-joined list of strings, for stating the polygon serialization shape. -/
def commaJoined : List String → String
  | [] => ""
  | [s] => s
  | s :: rest@(_ :: _) => s ++ "," ++ commaJoined rest

/-- Model of a `serde_json::Value`: the JSON tree a response body parses to. -/
inductive Json where
  | null
  | bool (b : Bool)
  | num (q : Rat)
  | str (s : String)
  | arr (items : List Json)
  | obj (fields : List (String × Json))

/-- Lookup of a key in an object's field list (first match, as in
`serde_json::Map::get`). -/
def jsonLookup (key : String) : List (String × Json) → Option Json
  | [] => none
  | (k, v) :: rest => if k = key then some v else jsonLookup key rest

/-- `value[key]` for `serde_json::Value` with a string index: the field of an
object when present, and `Null` otherwise (also for non-objects). -/
def Json.index (self : Json) (key : String) : Json :=
  match self with
  | .obj fields => (jsonLookup key fields).getD .null
  | _ => .null

/-- `serde_json::Value::as_f64`: the numeric value of a JSON number, `none`
for every other variant. -/
def Json.as_f64 : Json → Option Rat
  | .num q => some q
  | _ => none

/-- JSON string escaping as used by `serde_json`'s compact serializer for the
characters relevant here (quote, backslash and the common control
characters). -/
def escapeChar (c : Char) : String :=
  if c = '"' then "\\\""
  else if c = '\\' then "\\\\"
  else if c = '\n' then "\\n"
  else if c = '\t' then "\\t"
  else if c = '\r' then "\\r"
  else String.mk [c]

def escapeString (s : String) : String :=
  String.join (s.data.map escapeChar)

mutual

/-- `serde_json::Value::to_string`: the compact JSON rendering of a value
(`Null` renders as `"null"`, strings render quoted). -/
def Json.render : Json → String
  | .null => "null"
  | .bool b => cond b "true" "false"
  | .num q => fmtDecimal q
  | .str s => "\"" ++ escapeString s ++ "\""
  | .arr items => "[" ++ renderItems items ++ "]"
  | .obj fields => "\x7b" ++ renderFields fields ++ "\x7d"

def renderItems : List Json → String
  | [] => ""
  | [j] => j.render
  | j :: rest@(_ :: _) => j.render ++ "," ++ renderItems rest

def renderFields : List (String × Json) → String
  | [] => ""
  | [(k, v)] => "\"" ++ escapeString k ++ "\":" ++ v.render
  | (k, v) :: rest@(_ :: _) =>
    "\"" ++ escapeString k ++ "\":" ++ v.render ++ "," ++ renderFields rest

end

/-- Model of a `reqwest::blocking::Response`: its HTTP status code together
with what `Response::json::<Value>()` would produce (`none` when the body is
not valid JSON). -/
structure Response where
  status : Nat
  body : Option Json

/-- Outcome of a client call: `ok`, `err` with the raw response (the `Err`
side of the Rust `Result<_, Response>`), or a `panic!`. -/
inductive RunResult (α : Type) where
  | ok (a : α)
  | err (r : Response)
  | panicked

/-- The HTTP transport underlying `reqwest::blocking::Client::get(url).send()`:
`none` models a transport failure (no response obtained). -/
def Transport : Type := String → Option Response

/-- `src/options.rs`: optional parameters of `convert_to_3wa` (`language`,
`format`, `locale`). -/
structure ConvertTo3WAOptions where
  language : Option String
  format : Option String
  locale : Option String

/-- `Default for ConvertTo3WAOptions`: every field `None`. -/
def ConvertTo3WAOptions.default : ConvertTo3WAOptions :=
  ⟨none, none, none⟩

/-- `src/options.rs`: optional parameters of the `convert_to_coordinates`
calls (`format`, `locale`). -/
structure ConvertToCoordinatesOptions where
  format : Option String
  locale : Option String

/-- `Default for ConvertToCoordinatesOptions`: every field `None`. -/
def ConvertToCoordinatesOptions.default : ConvertToCoordinatesOptions :=
  ⟨none, none⟩

/-- Optional parameters of `autosuggest`, with the fields `src/lib.rs`
consumes (`focus_coordinates`, `circle`, `countries`, `bounding_box`,
`polygon`, `language`, `prefer_land`, `locale`). -/
structure AutoSuggestOptions where
  focus_coordinates : Option Coordinate
  circle : Option Circle
  countries : Option (List String)
  bounding_box : Option BoundingBox
  polygon : Option Polygon
  language : Option String
  prefer_land : Option Bool
  locale : Option String

/-- `Default for AutoSuggestOptions`: every field `None`. -/
def AutoSuggestOptions.default : AutoSuggestOptions :=
  ⟨none, none, none, none, none, none, none, none⟩

/-- `src/options.rs`: optional parameters of `grid_section` (`format`). -/
structure GridSectionOptions where
  format : Option String

/-- `Default for GridSectionOptions`: every field `None`. -/
def GridSectionOptions.default : GridSectionOptions :=
  ⟨none⟩

/-- `src/lib.rs`: the client configuration (`api_key`, `host`; the inner
`reqwest` client is modelled separately by a `Transport`). -/
structure W3WClient where
  api_key : String
  host : String

/-- `check_status_code` (`src/lib.rs`): `Err(response)` when
`status_code.is_client_error() || status_code.is_server_error()` (i.e. the
status is in `400..=499` or `500..=599`), `Ok(response)` otherwise. The
`eprintln!` logging is ignored. -/
def check_status_code (response : Response) : Except Response Response :=
  if (400 ≤ response.status ∧ response.status ≤ 499)
      ∨ (500 ≤ response.status ∧ response.status ≤ 599) then
    .error response
  else
    .ok response

/-- `parse_url` (`src/lib.rs`):
`url.push_str(&format!("&{}={}", keyword, value))`. -/
def parse_url (url : String) (keyword : String) (value : String) : String :=
  url ++ ("&" ++ keyword ++ "=" ++ value)

/-- `W3WClient::get_request` (`src/lib.rs`): sends a GET for `url`, `unwrap`s
the transport result (panicking on transport failure), then applies
`check_status_code`, whose `Err` is propagated by `?`. -/
def W3WClient.get_request (_self : W3WClient) (t : Transport) (url : String) :
    RunResult Response :=
  match t url with
  | none => .panicked
  | some response =>
    match check_status_code response with
    | .error r => .err r
    | .ok r => .ok r

/-- The URL assembled by `W3WClient::convert_to_3wa` (`src/lib.rs`): the
base `{host}/convert-to-3wa?key={key}&coordinates={coords}` with each
present option appended via `parse_url`. -/
def W3WClient.convert_to_3wa_url (self : W3WClient) (coordinates : Coordinate)
    (options : ConvertTo3WAOptions) : String :=
  let url := self.host ++ "/convert-to-3wa?key=" ++ self.api_key
    ++ "&coordinates=" ++ coordinates.to_string
  let url := match options.language with
    | some language => parse_url url "language" language
    | none => url
  let url := match options.format with
    | some fmt => parse_url url "format" fmt
    | none => url
  let url := match options.locale with
    | some locale => parse_url url "locale" locale
    | none => url
  url

/-- `W3WClient::convert_to_3wa` (`src/lib.rs`): assemble the URL, then
`get_request`. -/
def W3WClient.convert_to_3wa (self : W3WClient) (t : Transport)
    (coordinates : Coordinate) (options : ConvertTo3WAOptions) :
    RunResult Response :=
  self.get_request t (self.convert_to_3wa_url coordinates options)

/-- `get_json` (`src/lib.rs`): `resp?.json().expect(...)` — propagates an
`Err` response, panics when the body is not valid JSON (and when the call it
is chained after panicked). -/
def get_json (resp : RunResult Response) : RunResult Json :=
  match resp with
  | .panicked => .panicked
  | .err r => .err r
  | .ok r =>
    match r.body with
    | some json => .ok json
    | none => .panicked

/-- `W3WClient::convert_to_3wa_json` (`src/lib.rs`). -/
def W3WClient.convert_to_3wa_json (self : W3WClient) (t : Transport)
    (coordinates : Coordinate) (options : ConvertTo3WAOptions) :
    RunResult Json :=
  get_json (self.convert_to_3wa t coordinates options)

/-- `W3WClient::convert_to_3wa_string` (`src/lib.rs`): the JSON body's
`json["words"].to_string()` (the compact rendering of that field, `"null"`
when absent). -/
def W3WClient.convert_to_3wa_string (self : W3WClient) (t : Transport)
    (coordinates : Coordinate) (options : ConvertTo3WAOptions) :
    RunResult String :=
  match self.convert_to_3wa_json t coordinates options with
  | .panicked => .panicked
  | .err r => .err r
  | .ok json => .ok ((json.index "words").render)

/-- The URL assembled by `W3WClient::convert_to_coordinates` (`src/lib.rs`). -/
def W3WClient.convert_to_coordinates_url (self : W3WClient)
    (three_words : String) (options : ConvertToCoordinatesOptions) : String :=
  let url := self.host ++ "/convert-to-coordinates?words=" ++ three_words
    ++ "&key=" ++ self.api_key
  let url := match options.format with
    | some fmt => parse_url url "format" fmt
    | none => url
  let url := match options.locale with
    | some locale => parse_url url "locale" locale
    | none => url
  url

/-- `W3WClient::convert_to_coordinates` (`src/lib.rs`). -/
def W3WClient.convert_to_coordinates (self : W3WClient) (t : Transport)
    (three_words : String) (options : ConvertToCoordinatesOptions) :
    RunResult Response :=
  self.get_request t (self.convert_to_coordinates_url three_words options)

/-- `W3WClient::convert_to_coordinates_json` (`src/lib.rs`). -/
def W3WClient.convert_to_coordinates_json (self : W3WClient) (t : Transport)
    (three_words : String) (options : ConvertToCoordinatesOptions) :
    RunResult Json :=
  get_json (self.convert_to_coordinates t three_words options)

/-- `W3WClient::convert_to_coordinates_and_get_coordinate` (`src/lib.rs`):
projects `json["coordinates"]["lat"].as_f64().expect(...)` and likewise
`lng`; each `expect` panics when the field is missing or not a number. -/
def W3WClient.convert_to_coordinates_and_get_coordinate (self : W3WClient)
    (t : Transport) (three_words : String)
    (options : ConvertToCoordinatesOptions) : RunResult Coordinate :=
  match self.convert_to_coordinates_json t three_words options with
  | .panicked => .panicked
  | .err r => .err r
  | .ok three_words_json =>
    match ((three_words_json.index "coordinates").index "lat").as_f64 with
    | none => .panicked
    | some latitude =>
      match ((three_words_json.index "coordinates").index "lng").as_f64 with
      | none => .panicked
      | some longitude => .ok ⟨latitude, longitude⟩

/-- The URL assembled by `W3WClient::available_languages` (`src/lib.rs`). -/
def W3WClient.available_languages_url (self : W3WClient) : String :=
  self.host ++ "/available-languages?key=" ++ self.api_key

/-- `W3WClient::available_languages` (`src/lib.rs`). -/
def W3WClient.available_languages (self : W3WClient) (t : Transport) :
    RunResult Response :=
  self.get_request t self.available_languages_url

/-- The `clip-to-country` value built by `W3WClient::autosuggest`
(`src/lib.rs`): pushes `"{country},"` for every entry, then `pop`s the last
character. -/
def countriesString (country_value : List String) : String :=
  (country_value.foldl (fun acc country => acc ++ (country ++ ",")) "").dropRight 1

/-- The URL assembled by `W3WClient::autosuggest` (`src/lib.rs`): the base
`{host}/autosuggest?key={key}&input={input}` with each present option
appended via `parse_url`, in source order. A present `polygon` option is
serialized with `Polygon::to_string`, which panics on an empty polygon —
hence the `PanicOr` result. -/
def W3WClient.autosuggest_url (self : W3WClient) (input : String)
    (options : AutoSuggestOptions) : PanicOr String :=
  let url := self.host ++ "/autosuggest?key=" ++ self.api_key
    ++ "&input=" ++ input
  let url := match options.focus_coordinates with
    | some focus_coordinates => parse_url url "focus" focus_coordinates.to_string
    | none => url
  let url := match options.circle with
    | some theCircle => parse_url url "clip-to-circle" theCircle.to_string
    | none => url
  let url := match options.countries with
    | some country_value =>
      parse_url url "clip-to-country" (countriesString country_value)
    | none => url
  let url := match options.bounding_box with
    | some bounding_box =>
      parse_url url "clip-to-bounding-box" bounding_box.to_string
    | none => url
  let polyStep : PanicOr String := match options.polygon with
    | some polygon =>
      polygon.to_string.map (fun ps => parse_url url "clip-to-polygon" ps)
    | none => .ok url
  match polyStep with
  | .panicked => .panicked
  | .ok url =>
    let url := match options.language with
      | some language => parse_url url "language" language
      | none => url
    let url := match options.prefer_land with
      | some prefer_land =>
        parse_url url "prefer-land" (cond prefer_land "true" "false")
      | none => url
    let url := match options.locale with
      | some locale => parse_url url "locale" locale
      | none => url
    .ok url

/-- `W3WClient::autosuggest` (`src/lib.rs`). -/
def W3WClient.autosuggest (self : W3WClient) (t : Transport) (input : String)
    (options : AutoSuggestOptions) : RunResult Response :=
  match self.autosuggest_url input options with
  | .panicked => .panicked
  | .ok url => self.get_request t url

/-- The URL assembled by `W3WClient::grid_section` (`src/lib.rs`). -/
def W3WClient.grid_section_url (self : W3WClient) (bounding_box : BoundingBox)
    (options : GridSectionOptions) : String :=
  let url := self.host ++ "/grid-section?bounding-box="
    ++ bounding_box.to_string ++ "&key=" ++ self.api_key
  let url := match options.format with
    | some fmt => parse_url url "format" fmt
    | none => url
  url

/-- `W3WClient::grid_section` (`src/lib.rs`). -/
def W3WClient.grid_section (self : W3WClient) (t : Transport)
    (bounding_box : BoundingBox) (options : GridSectionOptions) :
    RunResult Response :=
  self.get_request t (self.grid_section_url bounding_box options)

/-- Whether a status code is a client error (`4xx`) or server error (`5xx`),
the condition `check_status_code` rejects. -/
def status_is_error (r : Response) : Bool :=
  decide ((400 ≤ r.status ∧ r.status ≤ 499) ∨ (500 ≤ r.status ∧ r.status ≤ 599))

/-- A concrete client configuration for counterexamples and witnesses. -/
def cexClient : W3WClient :=
  ⟨"key0", "http://h"⟩

/-- A concrete coordinate for counterexamples and witnesses. -/
def cexCoordinate : Coordinate :=
  ⟨1, 2⟩

/-- A response with a 3xx (redirection) status code. -/
def resp300 : Response :=
  ⟨300, none⟩

/-- A transport that always answers with the 3xx response. -/
def transport300 : Transport :=
  fun _ => some resp300

/-- A response with a 404 client-error status code. -/
def resp404 : Response :=
  ⟨404, none⟩

/-- A transport that always answers with the 404 response. -/
def transport404 : Transport :=
  fun _ => some resp404

/-- A transport on which every request fails (no response obtained). -/
def failTransport : Transport :=
  fun _ => none

/-- A 200 response whose JSON body is the empty object. -/
def emptyObjResp : Response :=
  ⟨200, some (.obj [])⟩

/-- A transport that always answers with the empty-object 200 response. -/
def emptyObjTransport : Transport :=
  fun _ => some emptyObjResp

/-- A well-formed What3Words JSON body with `words` and `coordinates`
fields. -/
def goodJson : Json :=
  .obj [("words", .str "filled.count.soap"),
    ("coordinates", .obj [("lat", .num 1), ("lng", .num 2)])]

/-- A 200 response carrying `goodJson`. -/
def goodResp : Response :=
  ⟨200, some goodJson⟩

/-- A transport that always answers with `goodResp`. -/
def goodTransport : Transport :=
  fun _ => some goodResp

/-- A concrete triangle used to witness the polygon theorems. -/
def trianglePoly : Polygon :=
  ⟨[⟨1, 2⟩, ⟨3, 4⟩, ⟨5, 6⟩]⟩

/-- A concrete one-point polygon used to witness the totality theorem. -/
def singlePointPoly : Polygon :=
  ⟨[⟨7, 8⟩]⟩

/- Basic string-append facts used throughout. -/

theorem str_empty_append (s : String) : "" ++ s = s := by
  cases s with
  | mk d => rfl

theorem str_data_append (a b : String) : (a ++ b).data = a.data ++ b.data := by
  cases a with
  | mk da =>
    cases b with
    | mk db => rfl

theorem str_append_assoc (a b c : String) : a ++ b ++ c = a ++ (b ++ c) := by
  cases a with
  | mk da =>
    cases b with
    | mk db =>
      cases c with
      | mk dc =>
        show String.mk (da ++ db ++ dc) = String.mk (da ++ (db ++ dc))
        rw [List.append_assoc]

theorem foldl_append_acc (ss : List String) (acc : String) :
    ss.foldl (fun a s => a ++ (s ++ ",")) acc
      = acc ++ ss.foldl (fun a s => a ++ (s ++ ",")) "" := by
  induction ss generalizing acc with
  | nil => simp [List.foldl]
  | cons s rest ih =>
    simp only [List.foldl]
    rw [ih (acc ++ (s ++ ",")), ih ("" ++ (s ++ ","))]
    rw [str_empty_append, str_append_assoc]

theorem commaJoined_concat (ss : List String) (t : String) :
    commaJoined (ss ++ [t])
      = ss.foldl (fun a s => a ++ (s ++ ",")) "" ++ t := by
  induction ss with
  | nil => simp [commaJoined, List.foldl, str_empty_append]
  | cons s rest ih =>
    cases rest with
    | nil =>
      simp only [List.nil_append, List.cons_append, commaJoined, List.foldl]
      rw [str_empty_append, str_append_assoc]
    | cons s2 rest2 =>
      simp only [List.cons_append, commaJoined] at ih ⊢
      rw [ih]
      simp only [List.foldl]
      rw [foldl_append_acc rest2 ("" ++ (s2 ++ ",")),
        foldl_append_acc rest2 ("" ++ (s ++ ",") ++ (s2 ++ ","))]
      simp only [str_empty_append, str_append_assoc]

end W3W

namespace W3W

/-- C7: `Coordinate::to_string` renders the latitude, a comma, and the
longitude; in particular `Coordinate { latitude: 50.12345, longitude: -3.98765 }`
serializes to exactly `"50.12345,-3.98765"`. -/
theorem coordinate_to_string_spec :
    (∀ coord : Coordinate,
      coord.to_string = fmtDecimal coord.latitude ++ "," ++ fmtDecimal coord.longitude)
    ∧ Coordinate.to_string ⟨50.12345, -3.98765⟩ = "50.12345,-3.98765" := by
  constructor
  · intro coord
    rfl
  · have h1 : (50.12345 : Rat) = mkRat 5012345 100000 := by
      rw [Rat.mkRat_eq_div]; norm_num
    have h2 : (-3.98765 : Rat) = mkRat (-398765) 100000 := by
      rw [Rat.mkRat_eq_div]; norm_num
    show fmtDecimal (50.12345 : Rat) ++ "," ++ fmtDecimal (-3.98765 : Rat) = _
    rw [h1, h2]
    decide

/-- C8: `BoundingBox::to_string` is the serialization of the south-west
coordinate, a comma, and the serialization of the north-east coordinate, i.e.
the four comma-separated numbers `sw.lat`, `sw.lng`, `ne.lat`, `ne.lng` in
that order. -/
theorem bounding_box_to_string_spec (bb : BoundingBox) :
    bb.to_string = bb.south_west.to_string ++ "," ++ bb.north_east.to_string
    ∧ bb.to_string
        = fmtDecimal bb.south_west.latitude ++ ","
            ++ (fmtDecimal bb.south_west.longitude ++ ","
            ++ (fmtDecimal bb.north_east.latitude ++ ","
            ++ fmtDecimal bb.north_east.longitude)) := by
  constructor
  · rfl
  · show bb.south_west.to_string ++ "," ++ bb.north_east.to_string = _
    show fmtDecimal bb.south_west.latitude ++ "," ++ fmtDecimal bb.south_west.longitude
        ++ "," ++ (fmtDecimal bb.north_east.latitude ++ "," ++ fmtDecimal bb.north_east.longitude)
        = _
    simp only [str_append_assoc]

/-- C9: `Circle::to_string` is the serialization of the centerpoint
coordinate, a comma, and the decimal rendering of the radius, i.e.
`"<lat>,<lng>,<radius>"`. -/
theorem circle_to_string_spec (ci : Circle) :
    ci.to_string = ci.centerpoint.to_string ++ "," ++ fmtDecimal ci.radius
    ∧ ci.to_string
        = fmtDecimal ci.centerpoint.latitude ++ ","
            ++ (fmtDecimal ci.centerpoint.longitude ++ ","
            ++ fmtDecimal ci.radius) := by
  constructor
  · rfl
  · show ci.centerpoint.to_string ++ "," ++ fmtDecimal ci.radius = _
    show fmtDecimal ci.centerpoint.latitude ++ "," ++ fmtDecimal ci.centerpoint.longitude
        ++ "," ++ fmtDecimal ci.radius = _
    simp only [str_append_assoc]

/-- C1: for a polygon with at least 3 coordinates, `Polygon::to_string`
returns the comma-joined serializations of all `N` points followed by the
serialization of the first point again: `N + 1` comma-joined points whose
last point equals the first. -/
theorem polygon_to_string_closes_ring (p : Polygon)
    (h : 3 ≤ p.coordinates.length) :
    p.to_string
        = .ok (commaJoined (p.coordinates.map Coordinate.to_string
            ++ [(p.coordinates.map Coordinate.to_string).headI]))
    ∧ (p.coordinates.map Coordinate.to_string
        ++ [(p.coordinates.map Coordinate.to_string).headI]).length
        = p.coordinates.length + 1
    ∧ (p.coordinates.map Coordinate.to_string
        ++ [(p.coordinates.map Coordinate.to_string).headI]).getLast?
        = (p.coordinates.map Coordinate.to_string
            ++ [(p.coordinates.map Coordinate.to_string).headI]).head? := by
  match hc : p.coordinates with
  | [] => simp [hc] at h
  | c0 :: rest =>
    refine ⟨?_, by simp, ?_⟩
    · show Polygon.to_string p = _
      unfold Polygon.to_string
      rw [hc]
      simp only [List.getElem?_cons_zero, List.map_cons, List.headI]
      rw [commaJoined_concat, ← List.map_cons, List.foldl_map]
    · simp only [List.map_cons, List.headI, ← List.cons_append]
      rw [List.getLast?_concat]
      simp

/-- C10: `Polygon::to_string` unconditionally indexes the first coordinate,
so it panics exactly on the empty coordinate list and is total (returns a
string) on every non-empty coordinate list. -/
theorem polygon_to_string_total_iff_nonempty :
    (∀ p : Polygon, p.coordinates = [] → p.to_string = .panicked)
    ∧ (∀ p : Polygon, p.coordinates ≠ [] → ∃ s, p.to_string = .ok s) := by
  constructor
  · intro p hp
    unfold Polygon.to_string
    rw [hp]
    rfl
  · intro p hp
    match hc : p.coordinates with
    | [] => exact absurd hc hp
    | c0 :: rest =>
      refine ⟨(c0 :: rest).foldl (fun acc item => acc ++ (item.to_string ++ ",")) ""
        ++ c0.to_string, ?_⟩
      unfold Polygon.to_string
      rw [hc]
      simp only [List.getElem?_cons_zero]

/-- Witness for C1: the ring-closing serialization evaluated on a concrete
triangle. -/
theorem polygon_to_string_closes_ring_witness :
    3 ≤ trianglePoly.coordinates.length
    ∧ (trianglePoly.to_string
        = .ok (commaJoined (trianglePoly.coordinates.map Coordinate.to_string
            ++ [(trianglePoly.coordinates.map Coordinate.to_string).headI]))
      ∧ (trianglePoly.coordinates.map Coordinate.to_string
          ++ [(trianglePoly.coordinates.map Coordinate.to_string).headI]).length
          = trianglePoly.coordinates.length + 1
      ∧ (trianglePoly.coordinates.map Coordinate.to_string
          ++ [(trianglePoly.coordinates.map Coordinate.to_string).headI]).getLast?
          = (trianglePoly.coordinates.map Coordinate.to_string
              ++ [(trianglePoly.coordinates.map Coordinate.to_string).headI]).head?) :=
  ⟨by decide, polygon_to_string_closes_ring trianglePoly (by decide)⟩

/-- Witness for C10: the empty polygon panics, a concrete non-empty polygon
serializes successfully. -/
theorem polygon_to_string_total_iff_nonempty_witness :
    Polygon.to_string ⟨[]⟩ = .panicked
    ∧ ∃ s, singlePointPoly.to_string = .ok s :=
  ⟨polygon_to_string_total_iff_nonempty.1 ⟨[]⟩ rfl,
    polygon_to_string_total_iff_nonempty.2 singlePointPoly (List.cons_ne_nil _ _)⟩

/-- C6: `parse_url` yields exactly the original URL followed by
`"&" ++ keyword ++ "=" ++ value`; at the character level the result is the
URL's characters, `'&'`, the keyword's characters, `'='`, and the value's
characters, so the existing prefix is unchanged. -/
theorem parse_url_appends_param (url keyword value : String) :
    parse_url url keyword value = url ++ "&" ++ keyword ++ "=" ++ value
    ∧ (parse_url url keyword value).data
        = url.data ++ ('&' :: (keyword.data ++ ('=' :: value.data))) := by
  constructor
  · show url ++ ("&" ++ keyword ++ "=" ++ value) = _
    simp only [str_append_assoc]
  · have h1 : ("&" : String).data = ['&'] := rfl
    have h2 : ("=" : String).data = ['='] := rfl
    simp only [parse_url, str_data_append, h1, h2]
    simp [List.append_assoc]

/-- C5: with every field of the options `None` (the `Default` options), each
endpoint's assembled URL is exactly its base URL with only the required
parameters — no optional `&key=value` parameter is appended.
(`available_languages` takes no options; its URL is always the base URL.) -/
theorem default_options_append_nothing (c : W3WClient) (coordinates : Coordinate)
    (three_words input : String) (bounding_box : BoundingBox) :
    c.convert_to_3wa_url coordinates ConvertTo3WAOptions.default
      = c.host ++ "/convert-to-3wa?key=" ++ c.api_key ++ "&coordinates="
          ++ coordinates.to_string
    ∧ c.convert_to_coordinates_url three_words ConvertToCoordinatesOptions.default
      = c.host ++ "/convert-to-coordinates?words=" ++ three_words
          ++ "&key=" ++ c.api_key
    ∧ c.autosuggest_url input AutoSuggestOptions.default
      = .ok (c.host ++ "/autosuggest?key=" ++ c.api_key ++ "&input=" ++ input)
    ∧ c.grid_section_url bounding_box GridSectionOptions.default
      = c.host ++ "/grid-section?bounding-box=" ++ bounding_box.to_string
          ++ "&key=" ++ c.api_key :=
  ⟨rfl, rfl, rfl, rfl⟩

theorem check_status_code_eq_cond (r : Response) :
    check_status_code r = cond (status_is_error r) (.error r) (.ok r) := by
  unfold check_status_code status_is_error
  by_cases h : (400 ≤ r.status ∧ r.status ≤ 499) ∨ (500 ≤ r.status ∧ r.status ≤ 599)
  · simp [h]
  · simp [h]

theorem get_request_of_transport_some (c : W3WClient) (t : Transport)
    (url : String) (r : Response) (h : t url = some r) :
    c.get_request t url = cond (status_is_error r) (.err r) (.ok r) := by
  have hred : c.get_request t url
      = match check_status_code r with
        | .error e => RunResult.err e
        | .ok x => RunResult.ok x := by
    unfold W3WClient.get_request
    rw [h]
  rw [hred, check_status_code_eq_cond]
  cases status_is_error r <;> rfl

theorem get_request_of_transport_none (c : W3WClient) (t : Transport)
    (url : String) (h : t url = none) :
    c.get_request t url = .panicked := by
  unfold W3WClient.get_request
  rw [h]

/-- Counterexample to C2 as stated: a 3xx status is not in the 2xx range,
yet `convert_to_3wa` returns `Ok(response)` — `check_status_code` only
rejects 4xx and 5xx statuses. -/
theorem status_300_returned_as_ok_cex :
    ¬ (200 ≤ resp300.status ∧ resp300.status ≤ 299)
    ∧ cexClient.convert_to_3wa transport300 cexCoordinate
        ConvertTo3WAOptions.default = .ok resp300 := by
  constructor
  · decide
  · rfl

/-- C2 (amended): for every endpoint method, when the transport yields a
response `r` for the assembled URL, the method returns `Err(r)` — the raw
response — exactly when `r`'s status is a 4xx or 5xx code, and returns
`Ok(r)` otherwise. -/
theorem endpoints_error_iff_4xx_5xx (c : W3WClient) (t : Transport) (r : Response) :
    (∀ coordinates options, t (c.convert_to_3wa_url coordinates options) = some r →
      c.convert_to_3wa t coordinates options
        = cond (status_is_error r) (.err r) (.ok r))
    ∧ (∀ three_words options,
        t (c.convert_to_coordinates_url three_words options) = some r →
        c.convert_to_coordinates t three_words options
          = cond (status_is_error r) (.err r) (.ok r))
    ∧ (∀ input options url, c.autosuggest_url input options = .ok url →
        t url = some r →
        c.autosuggest t input options
          = cond (status_is_error r) (.err r) (.ok r))
    ∧ (∀ bounding_box options,
        t (c.grid_section_url bounding_box options) = some r →
        c.grid_section t bounding_box options
          = cond (status_is_error r) (.err r) (.ok r))
    ∧ (t c.available_languages_url = some r →
        c.available_languages t
          = cond (status_is_error r) (.err r) (.ok r)) := by
  refine ⟨?_, ?_, ?_, ?_, ?_⟩
  · intro coordinates options h
    exact get_request_of_transport_some c t _ r h
  · intro three_words options h
    exact get_request_of_transport_some c t _ r h
  · intro input options url hurl h
    unfold W3WClient.autosuggest
    rw [hurl]
    exact get_request_of_transport_some c t _ r h
  · intro bounding_box options h
    exact get_request_of_transport_some c t _ r h
  · intro h
    exact get_request_of_transport_some c t _ r h

/-- Witness for the amended C2: a 404 response comes back as `Err` with the
raw response from `convert_to_3wa`, `autosuggest` and
`available_languages`. -/
theorem endpoints_error_iff_4xx_5xx_witness :
    (transport404 (cexClient.convert_to_3wa_url cexCoordinate
        ConvertTo3WAOptions.default) = some resp404
      ∧ cexClient.convert_to_3wa transport404 cexCoordinate
          ConvertTo3WAOptions.default
          = cond (status_is_error resp404) (.err resp404) (.ok resp404))
    ∧ (cexClient.autosuggest_url "a.b.c" AutoSuggestOptions.default
        = .ok (cexClient.host ++ "/autosuggest?key=" ++ cexClient.api_key
            ++ "&input=" ++ "a.b.c")
      ∧ cexClient.autosuggest transport404 "a.b.c" AutoSuggestOptions.default
          = cond (status_is_error resp404) (.err resp404) (.ok resp404))
    ∧ (transport404 cexClient.available_languages_url = some resp404
      ∧ cexClient.available_languages transport404
          = cond (status_is_error resp404) (.err resp404) (.ok resp404)) :=
  ⟨⟨rfl, (endpoints_error_iff_4xx_5xx cexClient transport404 resp404).1
      cexCoordinate ConvertTo3WAOptions.default rfl⟩,
    ⟨rfl, (endpoints_error_iff_4xx_5xx cexClient transport404 resp404).2.2.1
      "a.b.c" AutoSuggestOptions.default _ rfl rfl⟩,
    ⟨rfl, (endpoints_error_iff_4xx_5xx cexClient transport404 resp404).2.2.2.2 rfl⟩⟩

/-- Counterexample to C3 as stated: on a transport that fails,
`convert_to_3wa` panics (the `unwrap` of the `send()` result) — the outcome
is not an error result `Err(..)` surfaced to the caller. -/
theorem transport_failure_not_error_result_cex :
    cexClient.convert_to_3wa failTransport cexCoordinate
        ConvertTo3WAOptions.default = .panicked
    ∧ ∀ r : Response,
        cexClient.convert_to_3wa failTransport cexCoordinate
          ConvertTo3WAOptions.default ≠ .err r := by
  refine ⟨rfl, ?_⟩
  intro r h
  have h2 : (RunResult.panicked : RunResult Response) = .err r := h
  exact RunResult.noConfusion h2

/-- C3 (amended): on a request whose transport fails (no response obtained),
every endpoint method panics via the `unwrap` in `get_request`; there is no
local recovery or retry, and no error result is produced. -/
theorem transport_failure_panics (c : W3WClient) (t : Transport) :
    (∀ coordinates options, t (c.convert_to_3wa_url coordinates options) = none →
      c.convert_to_3wa t coordinates options = .panicked)
    ∧ (∀ three_words options,
        t (c.convert_to_coordinates_url three_words options) = none →
        c.convert_to_coordinates t three_words options = .panicked)
    ∧ (∀ input options url, c.autosuggest_url input options = .ok url →
        t url = none → c.autosuggest t input options = .panicked)
    ∧ (∀ bounding_box options,
        t (c.grid_section_url bounding_box options) = none →
        c.grid_section t bounding_box options = .panicked)
    ∧ (t c.available_languages_url = none →
        c.available_languages t = .panicked) := by
  refine ⟨?_, ?_, ?_, ?_, ?_⟩
  · intro coordinates options h
    exact get_request_of_transport_none c t _ h
  · intro three_words options h
    exact get_request_of_transport_none c t _ h
  · intro input options url hurl h
    unfold W3WClient.autosuggest
    rw [hurl]
    exact get_request_of_transport_none c t _ h
  · intro bounding_box options h
    exact get_request_of_transport_none c t _ h
  · intro h
    exact get_request_of_transport_none c t _ h

/-- Witness for the amended C3: on the always-failing transport,
`convert_to_3wa` and `available_languages` panic. -/
theorem transport_failure_panics_witness :
    (failTransport (cexClient.convert_to_3wa_url cexCoordinate
        ConvertTo3WAOptions.default) = none
      ∧ cexClient.convert_to_3wa failTransport cexCoordinate
          ConvertTo3WAOptions.default = .panicked)
    ∧ (failTransport cexClient.available_languages_url = none
      ∧ cexClient.available_languages failTransport = .panicked) :=
  ⟨⟨rfl, (transport_failure_panics cexClient failTransport).1
      cexCoordinate ConvertTo3WAOptions.default rfl⟩,
    ⟨rfl, (transport_failure_panics cexClient failTransport).2.2.2.2 rfl⟩⟩

/-- Counterexample to C4 as stated: on a 200 response whose JSON body is the
empty object, the `words` field is missing, yet `convert_to_3wa_string`
succeeds with `Ok("null")` — `json["words"].to_string()` renders the `Null`
produced by the index instead of failing. -/
theorem words_projection_missing_field_ok_cex :
    (Json.obj []).index "words" = .null
    ∧ cexClient.convert_to_3wa_string emptyObjTransport cexCoordinate
        ConvertTo3WAOptions.default = .ok "null" := by
  constructor
  · rfl
  · have hr : Json.render ((Json.obj []).index "words") = "null" := by
      simp [Json.index, jsonLookup, Json.render]
    show RunResult.ok (((Json.obj []).index "words").render) = .ok "null"
    rw [hr]

/-- C4 (amended): on a JSON body obtained successfully,
`convert_to_3wa_string` never fails on the field content — it returns the
compact JSON rendering of `json["words"]` (`"null"` when the field is
missing, a quoted string when it is a string) — while
`convert_to_coordinates_and_get_coordinate` panics (it does not return an
error result) when `coordinates.lat` or `coordinates.lng` is missing or not
a number, and returns the projected coordinate otherwise. -/
theorem field_projection_behavior :
    (∀ (c : W3WClient) (t : Transport) (coordinates : Coordinate)
        (options : ConvertTo3WAOptions) (j : Json),
      c.convert_to_3wa_json t coordinates options = .ok j →
      c.convert_to_3wa_string t coordinates options
        = .ok ((j.index "words").render))
    ∧ (∀ (c : W3WClient) (t : Transport) (three_words : String)
        (options : ConvertToCoordinatesOptions) (j : Json),
      c.convert_to_coordinates_json t three_words options = .ok j →
      ((((j.index "coordinates").index "lat").as_f64 = none
          ∨ ((j.index "coordinates").index "lng").as_f64 = none) →
        c.convert_to_coordinates_and_get_coordinate t three_words options
          = .panicked)
      ∧ (∀ la ln, ((j.index "coordinates").index "lat").as_f64 = some la →
          ((j.index "coordinates").index "lng").as_f64 = some ln →
          c.convert_to_coordinates_and_get_coordinate t three_words options
            = .ok ⟨la, ln⟩)) := by
  constructor
  · intro c t coordinates options j h
    unfold W3WClient.convert_to_3wa_string
    rw [h]
  · intro c t three_words options j h
    have hred : c.convert_to_coordinates_and_get_coordinate t three_words options
        = match ((j.index "coordinates").index "lat").as_f64 with
          | none => RunResult.panicked
          | some latitude =>
            match ((j.index "coordinates").index "lng").as_f64 with
            | none => RunResult.panicked
            | some longitude => RunResult.ok ⟨latitude, longitude⟩ := by
      unfold W3WClient.convert_to_coordinates_and_get_coordinate
      rw [h]
    constructor
    · intro hmiss
      rw [hred]
      rcases hmiss with hm | hm
      · rw [hm]
      · cases hlat : (((j.index "coordinates").index "lat").as_f64) with
        | none => rfl
        | some la => rw [hm]
    · intro la ln hla hln
      rw [hred, hla, hln]

/-- Witness for the amended C4: on a body with `words` and numeric
`coordinates.lat`/`lng`, the string projection returns the rendered field and
the coordinate projection returns the coordinate. -/
theorem field_projection_behavior_witness :
    (cexClient.convert_to_3wa_json goodTransport cexCoordinate
        ConvertTo3WAOptions.default = .ok goodJson
      ∧ cexClient.convert_to_3wa_string goodTransport cexCoordinate
          ConvertTo3WAOptions.default = .ok ((goodJson.index "words").render))
    ∧ (cexClient.convert_to_coordinates_json goodTransport "a.b.c"
        ConvertToCoordinatesOptions.default = .ok goodJson
      ∧ cexClient.convert_to_coordinates_and_get_coordinate goodTransport
          "a.b.c" ConvertToCoordinatesOptions.default = .ok ⟨1, 2⟩) :=
  ⟨⟨rfl, field_projection_behavior.1 cexClient goodTransport cexCoordinate
      ConvertTo3WAOptions.default goodJson rfl⟩,
    ⟨rfl, (field_projection_behavior.2 cexClient goodTransport "a.b.c"
      ConvertToCoordinatesOptions.default goodJson rfl).2 1 2 rfl rfl⟩⟩

end W3W
